import Mathlib

/-!
Verification of the Oloha encrypted session-authentication layer.

This file embeds the auth core of the repository in Lean:

* `encryptToken` / `decryptToken` / `generateEncryptedToken` from
  `oloha-backend/middlewares/auth-middleware/auth.middleware.js`;
* `encryptedAuthMiddleware` (the Authentication Gate) from the same file;
* `loginSuperAdmin` / `logoutSuperAdmin` from
  `oloha-backend/controllers/super-admin-controller/super-admin.controller.js`.

External library primitives (node `crypto` AES-256-GCM, `jsonwebtoken`,
`bcrypt`) are not code of this repository; they are modelled here as
executable idealized primitives exposing the same interface and
success/failure behaviour the source relies on: an AEAD whose
authentication tag deterministically commits to (key, iv, ciphertext),
a signed claim codec with expiry and 30-second clock tolerance, and a
deterministic injective password hash.  Timestamps are naturals
(milliseconds in the controllers, seconds in the token layer, exactly
as in the source).  Transport encoding (hex / JSON / base64url), which
the source applies and inverts with exact library inverses, is modelled
as the identity on the structured envelope.
-/

namespace Oloha

/-! ### Byte-level codec used by the modelled token primitives -/

/-- Length-prefixed encoding of a string as a list of naturals
(one element per character code point). -/
def encodeStr (s : String) : List Nat :=
  s.data.length :: s.data.map Char.toNat

/-- Inverse of `encodeStr`, returning the decoded string and the
unconsumed remainder of the input. -/
def decodeStr : List Nat → Option (String × List Nat)
  | [] => none
  | n :: rest =>
    if n ≤ rest.length then
      some (⟨(rest.take n).map Char.ofNat⟩, rest.drop n)
    else none

/-- Tagged encoding of an optional string (`0` = absent, `1` = present). -/
def encodeOptStr : Option String → List Nat
  | none => [0]
  | some s => 1 :: encodeStr s

/-- Inverse of `encodeOptStr`. -/
def decodeOptStr : List Nat → Option (Option String × List Nat)
  | 0 :: rest => some (none, rest)
  | 1 :: rest => (decodeStr rest).map (fun p => (some p.1, p.2))
  | _ => none

theorem take_len_append {α : Type} (l1 l2 : List α) : (l1 ++ l2).take l1.length = l1 := by
  induction l1 with
  | nil => rfl
  | cons a t ih => simp [ih]

theorem drop_len_append {α : Type} (l1 l2 : List α) : (l1 ++ l2).drop l1.length = l2 := by
  induction l1 with
  | nil => rfl
  | cons a t ih => simp [ih]

theorem map_ofNat_toNat (l : List Char) : (l.map Char.toNat).map Char.ofNat = l := by
  induction l with
  | nil => rfl
  | cons c t ih => simp [ih, Char.ofNat_toNat]

theorem decodeStr_encodeStr (s : String) (t : List Nat) :
    decodeStr (encodeStr s ++ t) = some (s, t) := by
  have hlen : s.data.length = (s.data.map Char.toNat).length := (List.length_map _ _).symm
  simp only [encodeStr, List.cons_append, decodeStr]
  rw [if_pos]
  · rw [hlen, take_len_append, drop_len_append, map_ofNat_toNat]
  · rw [hlen, List.length_append]
    exact Nat.le_add_right _ _

theorem decodeOptStr_encodeOptStr (o : Option String) (t : List Nat) :
    decodeOptStr (encodeOptStr o ++ t) = some (o, t) := by
  cases o with
  | none => rfl
  | some s => simp [encodeOptStr, decodeOptStr, decodeStr_encodeStr]

/-! ### Token Codec (modelled `jsonwebtoken` with HS256, 24h expiry,
30-second clock tolerance, as configured in `auth.middleware.js`) -/

/-- Decoded JWT claim set, mirroring the payload built by
`loginSuperAdmin` plus the `iat`/`exp` fields `jwt.sign` adds.
`role`, `user.id` and `sessionId` are optional because the gate
explicitly tests for their absence. -/
structure Claims where
  role : Option String
  userId : Option String
  email : String
  sessionId : Option String
  iat : Nat
  exp : Nat
  deriving DecidableEq

/-- Serialization of a claim set to signing-input bytes. -/
def claimsEncode (c : Claims) : List Nat :=
  encodeOptStr c.role ++ encodeOptStr c.userId ++ encodeStr c.email ++
    encodeOptStr c.sessionId ++ [c.iat, c.exp]

/-- Parse signed-token bytes into the claim set and the trailing
signature value. -/
def claimsDecode (l : List Nat) : Option (Claims × Nat) := do
  let (role, l1) ← decodeOptStr l
  let (userId, l2) ← decodeOptStr l1
  let (email, l3) ← decodeStr l2
  let (sessionId, l4) ← decodeOptStr l3
  match l4 with
  | [iat, exp, g] =>
    some ({ role := role, userId := userId, email := email,
            sessionId := sessionId, iat := iat, exp := exp }, g)
  | _ => none

theorem claimsDecode_claimsEncode (c : Claims) (g : Nat) :
    claimsDecode (claimsEncode c ++ [g]) = some (c, g) := by
  simp [claimsEncode, claimsDecode, List.append_assoc,
    decodeOptStr_encodeOptStr, decodeStr_encodeStr]

/-- Modelled HMAC-SHA256 signature over the encoded claims. -/
def jwtSig (secret : Nat) (c : Claims) : Nat :=
  (claimsEncode c).foldl (fun a b => a * 257 + b + 1) (secret + 1)

/-- Error cases of modelled `jwt.verify`. -/
inductive JwtErr where
  | malformed
  | badSignature
  | expired
  deriving DecidableEq

/-- The payload the controllers hand to `generateEncryptedToken`:
`{ role, user: { id, email }, sessionId }`. -/
structure TokenPayload where
  role : String
  userId : String
  email : String
  sessionId : String
  deriving DecidableEq

/-- Claim set produced by `jwt.sign(payload, secret, p expiresIn 24h)`
at issuance time `nowSec` (seconds): the payload claims plus
`iat = nowSec` and `exp = nowSec + 86400`. -/
def signedClaims (p : TokenPayload) (nowSec : Nat) : Claims :=
  { role := some p.role, userId := some p.userId, email := p.email,
    sessionId := some p.sessionId, iat := nowSec, exp := nowSec + 86400 }

/-- Modelled `jwt.sign` with a 24-hour `expiresIn`: serialized claims
followed by the signature. -/
def jwtSign (secret : Nat) (p : TokenPayload) (nowSec : Nat) : List Nat :=
  claimsEncode (signedClaims p nowSec) ++ [jwtSig secret (signedClaims p nowSec)]

/-- Modelled `jwt.verify(token, secret, with algorithms HS256 and
clockTolerance 30)`: parse, check the signature, then reject as expired
when `nowSec >= exp + 30` (the `jsonwebtoken` expiry comparison with its
clock tolerance). -/
def jwtVerifyBytes (secret : Nat) (bytes : List Nat) (nowSec : Nat) :
    Except JwtErr Claims :=
  match claimsDecode bytes with
  | none => .error .malformed
  | some (c, g) =>
    if g ≠ jwtSig secret c then .error .badSignature
    else if nowSec ≥ c.exp + 30 then .error .expired
    else .ok c

theorem jwtVerifyBytes_jwtSign (secret : Nat) (p : TokenPayload) (nowSec nowV : Nat)
    (h : nowV < nowSec + 86400 + 30) :
    jwtVerifyBytes secret (jwtSign secret p nowSec) nowV = .ok (signedClaims p nowSec) := by
  have hlt : ¬ nowV ≥ (signedClaims p nowSec).exp + 30 := by
    simp only [signedClaims]
    omega
  simp [jwtVerifyBytes, jwtSign, claimsDecode_claimsEncode, hlt]

/-! ### Crypto Envelope (modelled AES-256-GCM, as used by
`encryptToken` / `decryptToken` in `auth.middleware.js`) -/

/-- Keystream value of the modelled stream cipher at position `i`. -/
def ksAt (key iv i : Nat) : Nat :=
  (key + 1) * (i + 1) + iv * i

/-- Encrypt a byte list starting at stream position `i`. -/
def encBytes (key iv : Nat) : List Nat → Nat → List Nat
  | [], _ => []
  | b :: t, i => (b + ksAt key iv i) :: encBytes key iv t (i + 1)

/-- Decrypt a byte list starting at stream position `i`. -/
def decBytes (key iv : Nat) : List Nat → Nat → List Nat
  | [], _ => []
  | b :: t, i => (b - ksAt key iv i) :: decBytes key iv t (i + 1)

theorem decBytes_encBytes (key iv : Nat) (l : List Nat) :
    ∀ i, decBytes key iv (encBytes key iv l i) i = l := by
  induction l with
  | nil => intro i; rfl
  | cons b t ih => intro i; simp [encBytes, decBytes, ih]

/-- Position-weighted checksum over the ciphertext: changing any single
element changes the value (weights start at `w ≥ 1`). -/
def ws : List Nat → Nat → Nat
  | [], _ => 0
  | b :: t, w => (b + 1) * w + ws t (w + 1)

/-- Modelled GCM authentication tag: commits to key, iv and ciphertext. -/
def tagOf (key iv : Nat) (ct : List Nat) : Nat :=
  key * 2 + iv * 3 + 5 + ws ct 1

theorem ws_ne_of_single_change (b b' : Nat) (post : List Nat) (hne : b ≠ b') :
    ∀ (pre : List Nat) (w : Nat), 1 ≤ w →
      ws (pre ++ b :: post) w ≠ ws (pre ++ b' :: post) w := by
  intro pre
  induction pre with
  | nil =>
    intro w hw heq
    simp only [List.nil_append, ws] at heq
    have hb : (b + 1) * w = (b' + 1) * w := by omega
    have := Nat.eq_of_mul_eq_mul_right (Nat.lt_of_lt_of_le Nat.zero_lt_one hw) hb
    omega
  | cons a t ih =>
    intro w hw heq
    simp only [List.cons_append, ws] at heq
    exact ih (w + 1) (by omega) (Nat.add_left_cancel heq)

/-- The sealed envelope `{ iv, ciphertext, authTag }` produced by
`encryptToken` (each component hex-encoded in the source; the hex and
outer base64url/JSON transport steps are exact library inverses and are
modelled as the identity on this structure). -/
structure Envelope where
  iv : Nat
  ciphertext : List Nat
  authTag : Nat
  deriving DecidableEq

/-- Embedding of `encryptToken`: encrypt under (key, iv) and attach the
authentication tag. -/
def encryptToken (pt : List Nat) (key iv : Nat) : Envelope :=
  { iv := iv
    ciphertext := encBytes key iv pt 0
    authTag := tagOf key iv (encBytes key iv pt 0) }

/-- Embedding of `decryptToken`: verify the authentication tag
(`setAuthTag` + `final` in the source) and only then return plaintext;
tag mismatch fails closed with `none`. -/
def decryptToken (e : Envelope) (key : Nat) : Option (List Nat) :=
  if e.authTag = tagOf key e.iv e.ciphertext then
    some (decBytes key e.iv e.ciphertext 0)
  else none

/-- Code points of a plaintext string, the byte view used by the
envelope. -/
def strBytes (s : String) : List Nat :=
  s.data.map Char.toNat

/-- Embedding of `generateEncryptedToken`: sign the payload then seal
the signed token.  The random iv and the issuance clock are explicit
arguments. -/
def generateEncryptedToken (p : TokenPayload) (secret nowSec key iv : Nat) : Envelope :=
  encryptToken (jwtSign secret p nowSec) key iv

/-! ### Account state and modelled bcrypt -/

/-- SuperAdmin account record, restricted to the fields the auth core
reads and writes (`super-admin.model.js`).  `lockUntil` and `lastLogin`
are milliseconds since epoch; `password` is the stored bcrypt hash. -/
structure SuperAdminAcc where
  id : String
  email : String
  password : String
  isActive : Bool
  lastLogin : Option Nat
  loginAttempts : Nat
  lockUntil : Option Nat
  sessionId : Option String
  deriving DecidableEq

/-- Modelled bcrypt hash: deterministic and injective, standing in for
the external slow adaptive hash. -/
def hashPassword (p : String) : String :=
  "bcrypt." ++ p

/-- Modelled `bcrypt.compare(plain, storedHash)`. -/
def bcryptCompare (plain stored : String) : Bool :=
  stored = hashPassword plain

/-! ### Authentication Gate (`encryptedAuthMiddleware`) -/

/-- The identity the gate attaches to `req.user` on success. -/
structure AuthIdentity where
  id : String
  role : String
  email : String
  sessionId : Option String
  deriving DecidableEq

/-- Outcome of the gate, one constructor per exit point of
`encryptedAuthMiddleware` (the thrown-and-caught decryption, signature
and expiry errors all land in `authFailed`, the catch block). -/
inductive GateResult where
  | missingToken
  | authFailed
  | malformedPayload
  | maxLifetime
  | invalidRole
  | userNotFound
  | sessionMismatch
  | accountDisabled
  | ok (u : AuthIdentity)
  deriving DecidableEq

/-- JavaScript strict equality `decoded.sessionId === user.sessionId`,
where the left side is `undefined` when the claim is absent and the
right side is `null` before first login: the comparison holds only when
both are present and equal (`undefined === null` is false). -/
def jsSessionEq : Option String → Option String → Bool
  | some a, some b => a = b
  | _, _ => false

/-- Embedding of `encryptedAuthMiddleware`.  `env` is the transported
envelope (none when neither the Bearer header nor the `accessToken`
cookie is present), `nowSec` the verification-time clock in seconds and
`findById` the SuperAdmin store lookup. -/
def encryptedAuthMiddleware (env : Option Envelope) (key secret nowSec : Nat)
    (findById : String → Option SuperAdminAcc) : GateResult :=
  match env with
  | none => .missingToken
  | some e =>
    match decryptToken e key with
    | none => .authFailed
    | some bytes =>
      match jwtVerifyBytes secret bytes nowSec with
      | .error _ => .authFailed
      | .ok d =>
        if d.userId = none ∨ d.role = none then .malformedPayload
        else if d.iat < nowSec - 86400 then .maxLifetime
        else if d.role = some "SUPERADMIN" then
          match findById (d.userId.getD "") with
          | none => .userNotFound
          | some u =>
            if jsSessionEq d.sessionId u.sessionId = false then .sessionMismatch
            else if u.isActive = false then .accountDisabled
            else .ok { id := d.userId.getD "", role := "SUPERADMIN",
                       email := u.email, sessionId := d.sessionId }
        else .invalidRole

/-- Client-visible response of each gate outcome: HTTP status and body
message (none when the gate calls `next()`). -/
def gateResponse : GateResult → Option (Nat × String)
  | .missingToken => some (401, "Unauthorized: Missing encrypted token")
  | .authFailed => some (401, "Authentication failed")
  | .malformedPayload => some (401, "Malformed token payload")
  | .maxLifetime => some (401, "Token exceeded max lifetime")
  | .invalidRole => some (401, "Invalid role")
  | .userNotFound => some (404, "User not found")
  | .sessionMismatch => some (401, "Session mismatch detected")
  | .accountDisabled => some (403, "Account is disabled")
  | .ok _ => none

/-! ### Credential Verifier (`loginSuperAdmin`) -/

/-- Truthy lock test `lockUntil && lockUntil > Date.now()` (a Mongoose
`Date` is always truthy, so only presence and the comparison matter). -/
def lockActive : Option Nat → Nat → Bool
  | some t, nowMs => nowMs < t
  | none, _ => false

/-- Truthy expired-lock test `lockUntil && lockUntil <= Date.now()`. -/
def lockExpired : Option Nat → Nat → Bool
  | some t, nowMs => t ≤ nowMs
  | none, _ => false

/-- Lockout rejection body: `Account locked. Try again in N minutes.`
with `N = Math.ceil((lockUntil - now) / 60000)`. -/
def mkLockedMessage (remaining : Nat) : String :=
  "Account locked. Try again in " ++ toString remaining ++ " minutes."

/-- Remaining lockout minutes, the integer ceiling of the source's
real-number division. -/
def remainingMinutes (lockUntil nowMs : Nat) : Nat :=
  (lockUntil - nowMs + 59999) / 60000

/-- Wire response of `loginSuperAdmin`: HTTP status, `success` flag,
`message`, the `attempts` field (present only in the wrong-password
branch) and the token (present only on success). -/
structure LoginResponse where
  status : Nat
  success : Bool
  message : String
  attempts : Option Nat
  token : Option Envelope
  deriving DecidableEq

/-- Full effect of one `loginSuperAdmin` request: the response, the
saved account state (`none` when no account matched), whether
`bcrypt.compare` was executed, and the claim set signed into the issued
token (on success). -/
structure LoginStep where
  resp : LoginResponse
  account : Option SuperAdminAcc
  comparedPassword : Bool
  issuedClaims : Option Claims
  deriving DecidableEq

/-- Embedding of `loginSuperAdmin`.  `acc` is the result of
`SuperAdmin.findOne(by email)`, `nowMs` the request clock in
milliseconds, `fresh` the value `generateSecureToken()` returns for
this request, and `secret`/`key`/`iv` the token-layer material. -/
def loginSuperAdmin (acc : Option SuperAdminAcc) (email password : String)
    (nowMs : Nat) (fresh : String) (secret key iv : Nat) : LoginStep :=
  if email = "" ∨ password = "" then
    { resp := { status := 400, success := false,
                message := "Email and password are required",
                attempts := none, token := none },
      account := acc, comparedPassword := false, issuedClaims := none }
  else
    match acc with
    | none =>
      { resp := { status := 401, success := false,
                  message := "Invalid credentials",
                  attempts := none, token := none },
        account := none, comparedPassword := false, issuedClaims := none }
    | some a =>
      if lockActive a.lockUntil nowMs then
        { resp := { status := 423, success := false,
                    message := mkLockedMessage
                      (remainingMinutes (a.lockUntil.getD 0) nowMs),
                    attempts := none, token := none },
          account := some a, comparedPassword := false, issuedClaims := none }
      else
        let a1 := if lockExpired a.lockUntil nowMs then
            { a with loginAttempts := 0, lockUntil := none } else a
        if bcryptCompare password a1.password then
          let a3 := { a1 with loginAttempts := 0, lockUntil := none,
                              lastLogin := some nowMs, sessionId := some fresh }
          let payload : TokenPayload :=
            { role := "SUPERADMIN", userId := a1.id, email := a1.email,
              sessionId := fresh }
          { resp := { status := 200, success := true,
                      message := "Super Admin login successfully!",
                      attempts := none,
                      token := some (generateEncryptedToken payload secret (nowMs / 1000) key iv) },
            account := some a3, comparedPassword := true,
            issuedClaims := some (signedClaims payload (nowMs / 1000)) }
        else
          let attempts1 := a1.loginAttempts + 1
          let lock1 := if attempts1 ≥ 3 then some (nowMs + 30 * 60 * 1000)
            else a1.lockUntil
          let a2 := { a1 with loginAttempts := attempts1, lockUntil := lock1 }
          { resp := { status := 401, success := false,
                      message := if lockActive lock1 nowMs then
                          "Too many failed login attempts. Account locked for 30 minutes."
                        else "Invalid credentials",
                      attempts := some attempts1, token := none },
            account := some a2, comparedPassword := true, issuedClaims := none }

/-! ### Logout (`logoutSuperAdmin`) -/

/-- Wire response of `logoutSuperAdmin` plus whether the `accessToken`
cookie was cleared. -/
structure LogoutStep where
  status : Nat
  message : String
  clearedCookie : Bool
  deriving DecidableEq

/-- Embedding of `logoutSuperAdmin`: rotate the stored `sessionId` only
when an authenticated identity is attached (`req.user?.id`), always
clear the cookie and answer 200.  The account store is a lookup
function; `fresh` is the rotation value `generateSecureToken()`
returns. -/
def logoutSuperAdmin (reqUser : Option String)
    (store : String → Option SuperAdminAcc) (fresh : String) :
    LogoutStep × (String → Option SuperAdminAcc) :=
  let store' := match reqUser with
    | some uid => fun i =>
        if i = uid then (store uid).map (fun a => { a with sessionId := some fresh })
        else store i
    | none => store
  ({ status := 200, message := "Logout successfully", clearedCookie := true }, store')

/-- Concrete account fixture used by the witness theorems: account
`u1` whose correct password is `Correct1!`, with the given activity
flag, failed-attempt count, lock and session state. -/
def mkAcc (active : Bool) (la : Nat) (lu : Option Nat) (sid : Option String) :
    SuperAdminAcc :=
  { id := "u1", email := "a@x.com", password := hashPassword "Correct1!",
    isActive := active, lastLogin := none, loginAttempts := la,
    lockUntil := lu, sessionId := sid }

/-! ### Behaviour lemmas for `loginSuperAdmin` -/

theorem login_locked (a : SuperAdminAcc) (e p : String) (t : Nat) (fresh : String)
    (secret key iv : Nat) (he : ¬ e = "") (hp : ¬ p = "") (L : Nat)
    (hL : a.lockUntil = some L) (hlt : t < L) :
    loginSuperAdmin (some a) e p t fresh secret key iv =
      { resp := { status := 423, success := false,
                  message := mkLockedMessage (remainingMinutes L t),
                  attempts := none, token := none },
        account := some a, comparedPassword := false, issuedClaims := none } := by
  simp [loginSuperAdmin, he, hp, hL, lockActive, hlt]

theorem login_fail (a : SuperAdminAcc) (e p : String) (t : Nat) (fresh : String)
    (secret key iv : Nat) (he : ¬ e = "") (hp : ¬ p = "")
    (hnl : a.lockUntil = none) (hw : bcryptCompare p a.password = false) :
    loginSuperAdmin (some a) e p t fresh secret key iv =
      { resp := { status := 401, success := false,
                  message := if a.loginAttempts + 1 ≥ 3 then
                      "Too many failed login attempts. Account locked for 30 minutes."
                    else "Invalid credentials",
                  attempts := some (a.loginAttempts + 1), token := none },
        account := some { a with loginAttempts := a.loginAttempts + 1,
                                 lockUntil := if a.loginAttempts + 1 ≥ 3 then
                                     some (t + 30 * 60 * 1000) else none },
        comparedPassword := true, issuedClaims := none } := by
  by_cases h3 : a.loginAttempts + 1 ≥ 3 <;>
    simp [loginSuperAdmin, he, hp, hnl, lockActive, lockExpired, hw, h3]

theorem login_success (a : SuperAdminAcc) (e p : String) (t : Nat) (fresh : String)
    (secret key iv : Nat) (he : ¬ e = "") (hp : ¬ p = "")
    (hnl : a.lockUntil = none) (hm : bcryptCompare p a.password = true) :
    loginSuperAdmin (some a) e p t fresh secret key iv =
      { resp := { status := 200, success := true,
                  message := "Super Admin login successfully!",
                  attempts := none,
                  token := some (generateEncryptedToken
                    { role := "SUPERADMIN", userId := a.id, email := a.email,
                      sessionId := fresh } secret (t / 1000) key iv) },
        account := some { a with loginAttempts := 0, lockUntil := none,
                                 lastLogin := some t, sessionId := some fresh },
        comparedPassword := true,
        issuedClaims := some (signedClaims
          { role := "SUPERADMIN", userId := a.id, email := a.email,
            sessionId := fresh } (t / 1000)) } := by
  simp [loginSuperAdmin, he, hp, hnl, lockActive, lockExpired, hm]

theorem login_clear_expired (a : SuperAdminAcc) (e p : String) (t : Nat) (fresh : String)
    (secret key iv : Nat) (he : ¬ e = "") (hp : ¬ p = "") (L : Nat)
    (hL : a.lockUntil = some L) (hle : L ≤ t) :
    loginSuperAdmin (some a) e p t fresh secret key iv =
      loginSuperAdmin (some { a with loginAttempts := 0, lockUntil := none })
        e p t fresh secret key iv := by
  have hnl : ¬ t < L := not_lt.mpr hle
  simp [loginSuperAdmin, he, hp, hL, lockActive, lockExpired, hnl, hle]

/-! ### Claim theorems -/

/-- C2.  Lockout threshold: starting from `loginAttempts = 0` (and no
standing lock), three consecutive failed password checks leave the
account with `loginAttempts = 3` and `lockUntil = t3 + 30min` (set at
the time of the third failure), and a fourth attempt while
`now < lockUntil` — whatever password it supplies — is rejected 423
with the remaining-time message, without running `bcrypt.compare` and
without touching the stored state. -/
theorem lockout_threshold
    (a0 : SuperAdminAcc) (e p1 p2 p3 p4 : String) (t1 t2 t3 t4 : Nat)
    (fresh : String) (secret key iv : Nat)
    (he : ¬ e = "") (hp1 : ¬ p1 = "") (hp2 : ¬ p2 = "") (hp3 : ¬ p3 = "")
    (hp4 : ¬ p4 = "")
    (h0a : a0.loginAttempts = 0) (h0l : a0.lockUntil = none)
    (hw1 : bcryptCompare p1 a0.password = false)
    (hw2 : bcryptCompare p2 a0.password = false)
    (hw3 : bcryptCompare p3 a0.password = false)
    (ht4 : t4 < t3 + 30 * 60 * 1000) :
    (loginSuperAdmin (some a0) e p1 t1 fresh secret key iv).account =
        some { a0 with loginAttempts := 1, lockUntil := none } ∧
    (loginSuperAdmin (some { a0 with loginAttempts := 1, lockUntil := none })
        e p2 t2 fresh secret key iv).account =
        some { a0 with loginAttempts := 2, lockUntil := none } ∧
    (loginSuperAdmin (some { a0 with loginAttempts := 2, lockUntil := none })
        e p3 t3 fresh secret key iv).account =
        some { a0 with loginAttempts := 3, lockUntil := some (t3 + 30 * 60 * 1000) } ∧
    (loginSuperAdmin (some { a0 with loginAttempts := 3, lockUntil := some (t3 + 30 * 60 * 1000) })
        e p4 t4 fresh secret key iv) =
      { resp := { status := 423, success := false,
                  message := mkLockedMessage
                    (remainingMinutes (t3 + 30 * 60 * 1000) t4),
                  attempts := none, token := none },
        account := some { a0 with loginAttempts := 3, lockUntil := some (t3 + 30 * 60 * 1000) },
        comparedPassword := false, issuedClaims := none } := by
  refine ⟨?_, ?_, ?_, ?_⟩
  · rw [login_fail a0 e p1 t1 fresh secret key iv he hp1 h0l hw1]
    simp [h0a]
  · rw [login_fail { a0 with loginAttempts := 1, lockUntil := none }
      e p2 t2 fresh secret key iv he hp2 rfl hw2]
    simp
  · rw [login_fail { a0 with loginAttempts := 2, lockUntil := none }
      e p3 t3 fresh secret key iv he hp3 rfl hw3]
    simp
  · exact login_locked _ e p4 t4 fresh secret key iv he hp4 _ rfl ht4

/-- Witness for C2 at a concrete account and concrete times. -/
theorem lockout_threshold_witness :
    (loginSuperAdmin (some (mkAcc true 2 none none))
        "a@x.com" "bad3" 3000 "f" 7 3 5).account =
      some (mkAcc true 3 (some (3000 + 30 * 60 * 1000)) none) ∧
    (loginSuperAdmin (some (mkAcc true 3 (some (3000 + 30 * 60 * 1000)) none))
        "a@x.com" "Correct1!" 4000 "f" 7 3 5) =
      { resp := { status := 423, success := false,
                  message := mkLockedMessage
                    (remainingMinutes (3000 + 30 * 60 * 1000) 4000),
                  attempts := none, token := none },
        account := some (mkAcc true 3 (some (3000 + 30 * 60 * 1000)) none),
        comparedPassword := false, issuedClaims := none } := by
  have h := lockout_threshold (mkAcc true 0 none none)
    "a@x.com" "bad1" "bad2" "bad3" "Correct1!" 1000 2000 3000 4000 "f" 7 3 5
    (by decide) (by decide) (by decide) (by decide) (by decide)
    rfl rfl (by decide) (by decide) (by decide) (by decide)
  exact ⟨h.2.2.1, h.2.2.2⟩

/-- C3.  Lockout expiry is lazy: a login attempt at `now ≥ lockUntil`
behaves exactly like the same attempt on the account with
`loginAttempts` reset to 0 and `lockUntil` cleared (clearing and
password evaluation happen in the same request); concretely an account
locked at `t0` for 30 minutes still rejects a correct password at
`t0 + 29min` (423, password never compared) and accepts it at
`t0 + 31min`. -/
theorem lockout_lazy_expiry
    (a : SuperAdminAcc) (e p : String) (t0 : Nat) (fresh : String)
    (secret key iv : Nat) (he : ¬ e = "") (hp : ¬ p = "")
    (hL : a.lockUntil = some (t0 + 30 * 60 * 1000))
    (hm : bcryptCompare p a.password = true) :
    (∀ (t : Nat), t0 + 30 * 60 * 1000 ≤ t →
      loginSuperAdmin (some a) e p t fresh secret key iv =
        loginSuperAdmin (some { a with loginAttempts := 0, lockUntil := none })
          e p t fresh secret key iv) ∧
    ((loginSuperAdmin (some a) e p (t0 + 29 * 60 * 1000) fresh secret key iv).resp.status = 423 ∧
     (loginSuperAdmin (some a) e p (t0 + 29 * 60 * 1000) fresh secret key iv).comparedPassword = false) ∧
    ((loginSuperAdmin (some a) e p (t0 + 31 * 60 * 1000) fresh secret key iv).resp.status = 200 ∧
     (loginSuperAdmin (some a) e p (t0 + 31 * 60 * 1000) fresh secret key iv).resp.success = true ∧
     (loginSuperAdmin (some a) e p (t0 + 31 * 60 * 1000) fresh secret key iv).account =
       some { a with loginAttempts := 0, lockUntil := none,
                     lastLogin := some (t0 + 31 * 60 * 1000),
                     sessionId := some fresh } ∧
     (loginSuperAdmin (some a) e p (t0 + 31 * 60 * 1000) fresh secret key iv).comparedPassword = true) := by
  refine ⟨?_, ?_, ?_⟩
  · intro t ht
    exact login_clear_expired a e p t fresh secret key iv he hp _ hL ht
  · rw [login_locked a e p (t0 + 29 * 60 * 1000) fresh secret key iv he hp _ hL (by omega)]
    exact ⟨rfl, rfl⟩
  · rw [login_clear_expired a e p (t0 + 31 * 60 * 1000) fresh secret key iv he hp _ hL (by omega)]
    rw [login_success { a with loginAttempts := 0, lockUntil := none }
      e p (t0 + 31 * 60 * 1000) fresh secret key iv he hp rfl hm]
    exact ⟨rfl, rfl, rfl, rfl⟩

/-- Witness for C3 at a concrete locked account. -/
theorem lockout_lazy_expiry_witness :
    (loginSuperAdmin (some (mkAcc true 3 (some (1000 + 30 * 60 * 1000)) none))
        "a@x.com" "Correct1!" (1000 + 29 * 60 * 1000) "f" 7 3 5).resp.status = 423 ∧
    (loginSuperAdmin (some (mkAcc true 3 (some (1000 + 30 * 60 * 1000)) none))
        "a@x.com" "Correct1!" (1000 + 31 * 60 * 1000) "f" 7 3 5).resp.status = 200 := by
  have h := lockout_lazy_expiry (mkAcc true 3 (some (1000 + 30 * 60 * 1000)) none)
    "a@x.com" "Correct1!" 1000 "f" 7 3 5 (by decide) (by decide) rfl (by decide)
  exact ⟨h.2.1.1, h.2.2.1⟩

/-- C6.  Crypto round-trip: opening a sealed envelope recovers the
plaintext exactly (stated both for the byte view of an arbitrary
string and for arbitrary byte lists), and verifying a token signed
from a claim set before its expiry recovers those claims exactly. -/
theorem crypto_roundtrip :
    (∀ (p : String) (key iv : Nat),
      decryptToken (encryptToken (strBytes p) key iv) key = some (strBytes p)) ∧
    (∀ (pt : List Nat) (key iv : Nat),
      decryptToken (encryptToken pt key iv) key = some pt) ∧
    (∀ (secret : Nat) (p : TokenPayload) (nowSec nowV : Nat),
      nowV < nowSec + 86400 + 30 →
      jwtVerifyBytes secret (jwtSign secret p nowSec) nowV =
        .ok (signedClaims p nowSec)) := by
  refine ⟨?_, ?_, ?_⟩
  · intro p key iv
    simp [encryptToken, decryptToken, decBytes_encBytes]
  · intro pt key iv
    simp [encryptToken, decryptToken, decBytes_encBytes]
  · intro secret p nowSec nowV h
    exact jwtVerifyBytes_jwtSign secret p nowSec nowV h

/-- Witness for C6 at a concrete plaintext and claim set. -/
theorem crypto_roundtrip_witness :
    decryptToken (encryptToken (strBytes "hello") 3 5) 3 = some (strBytes "hello") ∧
    jwtVerifyBytes 7 (jwtSign 7 ⟨"SUPERADMIN", "u1", "a@x.com", "s1"⟩ 100) 120 =
      .ok (signedClaims ⟨"SUPERADMIN", "u1", "a@x.com", "s1"⟩ 100) :=
  ⟨crypto_roundtrip.1 "hello" 3 5,
   crypto_roundtrip.2.2 7 ⟨"SUPERADMIN", "u1", "a@x.com", "s1"⟩ 100 120 (by decide)⟩

/-- C7.  Tamper detection: changing any single ciphertext byte of a
sealed envelope, or changing its authentication tag, makes `open`
(`decryptToken`) fail closed with `none` — no plaintext, right or
wrong, is ever returned for a tampered envelope. -/
theorem tamper_detection (pt : List Nat) (key iv : Nat) :
    (∀ (pre post : List Nat) (b b' : Nat),
      (encryptToken pt key iv).ciphertext = pre ++ b :: post → b' ≠ b →
      decryptToken { iv := iv, ciphertext := pre ++ b' :: post,
                     authTag := (encryptToken pt key iv).authTag } key = none) ∧
    (∀ (t' : Nat), t' ≠ (encryptToken pt key iv).authTag →
      decryptToken { iv := iv, ciphertext := (encryptToken pt key iv).ciphertext,
                     authTag := t' } key = none) := by
  constructor
  · intro pre post b b' hct hne
    have hct' : encBytes key iv pt 0 = pre ++ b :: post := hct
    have hws : ws (pre ++ b :: post) 1 ≠ ws (pre ++ b' :: post) 1 :=
      ws_ne_of_single_change b b' post (fun h => hne h.symm) pre 1 le_rfl
    have htag : tagOf key iv (encBytes key iv pt 0) ≠ tagOf key iv (pre ++ b' :: post) := by
      rw [hct']
      simp only [tagOf]
      omega
    dsimp only [decryptToken, encryptToken]
    rw [if_neg htag]
  · intro t' hne
    have hne' : t' ≠ tagOf key iv (encBytes key iv pt 0) := hne
    dsimp only [decryptToken, encryptToken]
    rw [if_neg hne']

/-- Witness for C7: a concrete envelope, its first ciphertext byte
changed, and its tag changed, both rejected. -/
theorem tamper_detection_witness :
    decryptToken { iv := 5, ciphertext := [6, 15, 25],
                   authTag := (encryptToken [1, 2, 3] 3 5).authTag } 3 = none ∧
    decryptToken { iv := 5, ciphertext := (encryptToken [1, 2, 3] 3 5).ciphertext,
                   authTag := 0 } 3 = none := by
  have h1 := (tamper_detection [1, 2, 3] 3 5).1 [] [15, 25] 5 6 (by decide) (by decide)
  have h2 := (tamper_detection [1, 2, 3] 3 5).2 0 (by decide)
  exact ⟨h1, h2⟩

/-- C10.  Logout frame: a logout request carrying no authenticated
identity still answers 200 "Logout successfully" and clears the
access-token cookie while leaving every stored account (sessionId,
loginAttempts, lockUntil and all) unchanged; when an identity is
attached, exactly that account's `sessionId` is rotated and every
other account is untouched. -/
theorem logout_frame :
    ∀ (store : String → Option SuperAdminAcc) (fresh : String),
      (logoutSuperAdmin none store fresh).1 =
        { status := 200, message := "Logout successfully", clearedCookie := true } ∧
      (logoutSuperAdmin none store fresh).2 = store ∧
      (∀ (uid i : String),
        (logoutSuperAdmin (some uid) store fresh).2 i =
          if i = uid then
            (store uid).map (fun a => { a with sessionId := some fresh })
          else store i) ∧
      (∀ (uid : String), (logoutSuperAdmin (some uid) store fresh).1 =
        { status := 200, message := "Logout successfully", clearedCookie := true }) := by
  intro store fresh
  exact ⟨rfl, rfl, fun uid i => rfl, fun uid => rfl⟩

/-- C1.  Single active session: a successful login stores the freshly
generated `sessionId` and embeds the same value in the issued token's
claims; thereafter any request whose verified token carries a
`sessionId` different from the stored one is rejected by the
Authentication Gate with the session-mismatch outcome, while a token
carrying the currently stored `sessionId` passes the session-binding
check (proceeding to the activity check and, for an active account,
to an attached identity). -/
theorem single_active_session
    (a : SuperAdminAcc) (e p : String) (t : Nat) (fresh : String)
    (secret key iv : Nat) (he : ¬ e = "") (hp : ¬ p = "")
    (hl : a.lockUntil = none) (hm : bcryptCompare p a.password = true)
    (find : String → Option SuperAdminAcc)
    (hfind : find a.id = some { a with loginAttempts := 0, lockUntil := none,
                                       lastLogin := some t, sessionId := some fresh }) :
    (loginSuperAdmin (some a) e p t fresh secret key iv).account =
      some { a with loginAttempts := 0, lockUntil := none,
                    lastLogin := some t, sessionId := some fresh } ∧
    (loginSuperAdmin (some a) e p t fresh secret key iv).issuedClaims =
      some (signedClaims
        { role := "SUPERADMIN", userId := a.id, email := a.email,
          sessionId := fresh } (t / 1000)) ∧
    (∀ (env : Envelope) (nowSec : Nat) (bytes : List Nat) (d : Claims) (s : String),
      decryptToken env key = some bytes →
      jwtVerifyBytes secret bytes nowSec = .ok d →
      d.userId = some a.id → d.role = some "SUPERADMIN" →
      ¬ d.iat < nowSec - 86400 →
      d.sessionId = some s → ¬ s = fresh →
      encryptedAuthMiddleware (some env) key secret nowSec find = .sessionMismatch) ∧
    (∀ (env : Envelope) (nowSec : Nat) (bytes : List Nat) (d : Claims),
      decryptToken env key = some bytes →
      jwtVerifyBytes secret bytes nowSec = .ok d →
      d.userId = some a.id → d.role = some "SUPERADMIN" →
      ¬ d.iat < nowSec - 86400 →
      d.sessionId = some fresh →
      encryptedAuthMiddleware (some env) key secret nowSec find =
        (if a.isActive then
          .ok { id := a.id, role := "SUPERADMIN", email := a.email,
                sessionId := some fresh }
         else .accountDisabled)) := by
  refine ⟨?_, ?_, ?_, ?_⟩
  · rw [login_success a e p t fresh secret key iv he hp hl hm]
  · rw [login_success a e p t fresh secret key iv he hp hl hm]
  · intro env nowSec bytes d s hdec hver huid hrole hiat hsid hne
    simp [encryptedAuthMiddleware, hdec, hver, huid, hrole, hiat, hfind,
      hsid, jsSessionEq, hne]
  · intro env nowSec bytes d hdec hver huid hrole hiat hsid
    by_cases hact : a.isActive <;>
      simp [encryptedAuthMiddleware, hdec, hver, huid, hrole, hiat, hfind,
        hsid, jsSessionEq, hact]

/-- Witness for C1: fresh session `s2` stored by the concrete account
store; a token embedding the superseded `s1` is rejected with
session-mismatch and a token embedding `s2` authenticates. -/
theorem single_active_session_witness :
    encryptedAuthMiddleware
      (some (generateEncryptedToken ⟨"SUPERADMIN", "u1", "a@x.com", "s1"⟩ 7 50 3 5))
      3 7 50
      (fun i => if i = "u1" then
        some
          { mkAcc true 0 none (some "s0") with
            loginAttempts := 0, lockUntil := none,
            lastLogin := some 50000, sessionId := some "s2" }
        else none) = .sessionMismatch ∧
    encryptedAuthMiddleware
      (some (generateEncryptedToken ⟨"SUPERADMIN", "u1", "a@x.com", "s2"⟩ 7 50 3 5))
      3 7 50
      (fun i => if i = "u1" then
        some
          { mkAcc true 0 none (some "s0") with
            loginAttempts := 0, lockUntil := none,
            lastLogin := some 50000, sessionId := some "s2" }
        else none) =
      .ok { id := "u1", role := "SUPERADMIN", email := "a@x.com",
            sessionId := some "s2" } := by
  have h := single_active_session (mkAcc true 0 none (some "s0"))
    "a@x.com" "Correct1!" 50000 "s2" 7 3 5 (by decide) (by decide) rfl (by decide)
    (fun i => if i = "u1" then
      some
        { mkAcc true 0 none (some "s0") with
          loginAttempts := 0, lockUntil := none,
          lastLogin := some 50000, sessionId := some "s2" }
      else none) rfl
  refine ⟨?_, ?_⟩
  · exact h.2.2.1 (generateEncryptedToken ⟨"SUPERADMIN", "u1", "a@x.com", "s1"⟩ 7 50 3 5)
      50 (jwtSign 7 ⟨"SUPERADMIN", "u1", "a@x.com", "s1"⟩ 50)
      (signedClaims ⟨"SUPERADMIN", "u1", "a@x.com", "s1"⟩ 50) "s1"
      rfl rfl rfl rfl (by decide) rfl (by decide)
  · exact h.2.2.2 (generateEncryptedToken ⟨"SUPERADMIN", "u1", "a@x.com", "s2"⟩ 7 50 3 5)
      50 (jwtSign 7 ⟨"SUPERADMIN", "u1", "a@x.com", "s2"⟩ 50)
      (signedClaims ⟨"SUPERADMIN", "u1", "a@x.com", "s2"⟩ 50)
      rfl rfl rfl rfl (by decide) rfl

/-- C4 counterexample.  The two rejections are not wire-identical: at a
concrete pair of requests — unknown email vs existing unlocked account
with a wrong password — status and message agree, but the
wrong-password body carries the `attempts` field the not-found body
lacks, so the full responses differ. -/
theorem enumeration_resistance_cex :
    (loginSuperAdmin none "a@x.com" "wrongpw" 1000 "f" 7 3 5).resp.status =
      (loginSuperAdmin (some (mkAcc true 0 none none)) "a@x.com" "wrongpw" 1000 "f" 7 3 5).resp.status ∧
    (loginSuperAdmin none "a@x.com" "wrongpw" 1000 "f" 7 3 5).resp.message =
      (loginSuperAdmin (some (mkAcc true 0 none none)) "a@x.com" "wrongpw" 1000 "f" 7 3 5).resp.message ∧
    (loginSuperAdmin none "a@x.com" "wrongpw" 1000 "f" 7 3 5).resp.attempts = none ∧
    (loginSuperAdmin (some (mkAcc true 0 none none)) "a@x.com" "wrongpw" 1000 "f" 7 3 5).resp.attempts = some 1 ∧
    ¬ (loginSuperAdmin none "a@x.com" "wrongpw" 1000 "f" 7 3 5).resp =
        (loginSuperAdmin (some (mkAcc true 0 none none)) "a@x.com" "wrongpw" 1000 "f" 7 3 5).resp := by
  refine ⟨rfl, rfl, rfl, rfl, ?_⟩
  decide

/-- C4 amended.  Enumeration resistance holds for status and message:
an unknown email and a wrong password on an existing unlocked account
(below the lockout threshold) both yield 401 with the same generic
"Invalid credentials" message; but the wrong-password body additionally
carries the updated `attempts` counter, absent from the not-found body,
so the two rejections are distinguishable at the wire level by that
field. -/
theorem enumeration_resistance_amended
    (a : SuperAdminAcc) (e p : String) (t : Nat) (fresh : String)
    (secret key iv : Nat) (he : ¬ e = "") (hp : ¬ p = "")
    (hl : a.lockUntil = none) (hw : bcryptCompare p a.password = false)
    (hfew : a.loginAttempts + 1 < 3) :
    (loginSuperAdmin none e p t fresh secret key iv).resp.status = 401 ∧
    (loginSuperAdmin (some a) e p t fresh secret key iv).resp.status = 401 ∧
    (loginSuperAdmin none e p t fresh secret key iv).resp.message = "Invalid credentials" ∧
    (loginSuperAdmin (some a) e p t fresh secret key iv).resp.message = "Invalid credentials" ∧
    (loginSuperAdmin none e p t fresh secret key iv).resp.attempts = none ∧
    (loginSuperAdmin (some a) e p t fresh secret key iv).resp.attempts =
      some (a.loginAttempts + 1) := by
  have h3 : ¬ a.loginAttempts + 1 ≥ 3 := by omega
  rw [login_fail a e p t fresh secret key iv he hp hl hw]
  refine ⟨?_, rfl, ?_, ?_, ?_, rfl⟩ <;> simp [loginSuperAdmin, he, hp, h3]

/-- Witness for the amended C4 at a concrete account. -/
theorem enumeration_resistance_amended_witness :
    (loginSuperAdmin none "a@x.com" "wrongpw" 1000 "f" 7 3 5).resp.message =
      "Invalid credentials" ∧
    (loginSuperAdmin (some (mkAcc true 0 none none)) "a@x.com" "wrongpw" 1000 "f" 7 3 5).resp.message =
      "Invalid credentials" ∧
    (loginSuperAdmin (some (mkAcc true 0 none none)) "a@x.com" "wrongpw" 1000 "f" 7 3 5).resp.attempts =
      some 1 := by
  have h := enumeration_resistance_amended (mkAcc true 0 none none)
    "a@x.com" "wrongpw" 1000 "f" 7 3 5 (by decide) (by decide) rfl (by decide)
    (by decide)
  exact ⟨h.2.2.1, h.2.2.2.1, h.2.2.2.2.2⟩

/-- C5 counterexample.  The claim that a disabled account's login
"does not succeed and does not yield a token" fails on the code:
`loginSuperAdmin` never reads `isActive`, so a concrete account with
`isActive = false` and the correct password receives 200, `success`,
and a token. -/
theorem disabled_account_cex :
    (mkAcc false 0 none none).isActive = false ∧
    (loginSuperAdmin (some (mkAcc false 0 none none)) "a@x.com" "Correct1!" 1000 "f" 7 3 5).resp.status = 200 ∧
    (loginSuperAdmin (some (mkAcc false 0 none none)) "a@x.com" "Correct1!" 1000 "f" 7 3 5).resp.success = true ∧
    (loginSuperAdmin (some (mkAcc false 0 none none)) "a@x.com" "Correct1!" 1000 "f" 7 3 5).resp.token.isSome = true := by
  exact ⟨rfl, rfl, rfl, rfl⟩

/-- C5 amended.  The login endpoint itself does not check `isActive`
(see the counterexample), but the Authentication Gate blocks every
request for a disabled account: the gate attaches an identity only
when the resolved account has `isActive = true`, and a verified,
session-matching token for a disabled account is rejected with the
account-disabled outcome (403), so the issued token is unusable at the
gate. -/
theorem disabled_account_amended :
    (∀ (env : Option Envelope) (key secret nowSec : Nat)
      (find : String → Option SuperAdminAcc) (ident : AuthIdentity),
      encryptedAuthMiddleware env key secret nowSec find = .ok ident →
      ∃ u, find ident.id = some u ∧ u.isActive = true) ∧
    (∀ (env : Envelope) (key secret nowSec : Nat) (bytes : List Nat)
      (d : Claims) (find : String → Option SuperAdminAcc) (u : SuperAdminAcc),
      decryptToken env key = some bytes →
      jwtVerifyBytes secret bytes nowSec = .ok d →
      ¬ d.userId = none → d.role = some "SUPERADMIN" →
      ¬ d.iat < nowSec - 86400 →
      find (d.userId.getD "") = some u →
      jsSessionEq d.sessionId u.sessionId = true →
      u.isActive = false →
      encryptedAuthMiddleware (some env) key secret nowSec find =
        .accountDisabled) := by
  constructor
  · intro env key secret nowSec find ident h
    cases env with
    | none =>
      simp only [encryptedAuthMiddleware] at h
      exact GateResult.noConfusion h
    | some e =>
      simp only [encryptedAuthMiddleware] at h
      cases hdec : decryptToken e key with
      | none =>
        simp only [hdec] at h
        exact GateResult.noConfusion h
      | some bytes =>
        simp only [hdec] at h
        cases hver : jwtVerifyBytes secret bytes nowSec with
        | error je =>
          simp only [hver] at h
          exact GateResult.noConfusion h
        | ok d =>
          simp only [hver] at h
          by_cases h1 : d.userId = none ∨ d.role = none
          · rw [if_pos h1] at h
            exact GateResult.noConfusion h
          rw [if_neg h1] at h
          by_cases h2 : d.iat < nowSec - 86400
          · rw [if_pos h2] at h
            exact GateResult.noConfusion h
          rw [if_neg h2] at h
          by_cases h3 : d.role = some "SUPERADMIN"
          · rw [if_pos h3] at h
            cases hfind : find (d.userId.getD "") with
            | none =>
              simp only [hfind] at h
              exact GateResult.noConfusion h
            | some u =>
              simp only [hfind] at h
              by_cases h4 : jsSessionEq d.sessionId u.sessionId = false
              · rw [if_pos h4] at h
                exact GateResult.noConfusion h
              rw [if_neg h4] at h
              by_cases h5 : u.isActive = false
              · rw [if_pos h5] at h
                exact GateResult.noConfusion h
              rw [if_neg h5] at h
              refine ⟨u, ?_, ?_⟩
              · have hid := congrArg AuthIdentity.id (GateResult.ok.inj h)
                dsimp only at hid
                rw [← hid]
                exact hfind
              · cases hb : u.isActive with
                | false => exact absurd hb h5
                | true => rfl
          · rw [if_neg h3] at h
            exact GateResult.noConfusion h
  · intro env key secret nowSec bytes d find u hdec hver h1 hrole h3 hfind hsess hact
    have h12 : ¬ (d.userId = none ∨ d.role = none) := by
      intro hor
      cases hor with
      | inl hh => exact h1 hh
      | inr hh => rw [hrole] at hh; exact Option.noConfusion hh
    have hsess' : ¬ jsSessionEq d.sessionId u.sessionId = false := by
      rw [hsess]
      decide
    simp only [encryptedAuthMiddleware, hdec, hver]
    rw [if_neg h12, if_neg h3, if_pos hrole]
    simp only [hfind]
    rw [if_neg hsess', if_pos hact]

/-- Witness for the amended C5: an active account authenticates (so
the gate's `ok` implies activity) and the same valid, session-matching
token is rejected with the account-disabled outcome once the store
holds `isActive = false`. -/
theorem disabled_account_amended_witness :
    (∃ u, (fun i => if i = "u1" then
        some
          { mkAcc true 0 none (some "s0") with
            loginAttempts := 0, lockUntil := none,
            lastLogin := some 50000, sessionId := some "s2" }
        else none) "u1" = some u ∧ u.isActive = true) ∧
    encryptedAuthMiddleware
      (some (generateEncryptedToken ⟨"SUPERADMIN", "u1", "a@x.com", "s2"⟩ 7 50 3 5))
      3 7 50
      (fun i => if i = "u1" then some (mkAcc false 0 none (some "s2")) else none) =
      .accountDisabled := by
  refine ⟨?_, ?_⟩
  · exact disabled_account_amended.1
      (some (generateEncryptedToken ⟨"SUPERADMIN", "u1", "a@x.com", "s2"⟩ 7 50 3 5))
      3 7 50
      (fun i => if i = "u1" then
        some
          { mkAcc true 0 none (some "s0") with
            loginAttempts := 0, lockUntil := none,
            lastLogin := some 50000, sessionId := some "s2" }
        else none)
      ⟨"u1", "SUPERADMIN", "a@x.com", some "s2"⟩ rfl
  · exact disabled_account_amended.2
      (generateEncryptedToken ⟨"SUPERADMIN", "u1", "a@x.com", "s2"⟩ 7 50 3 5)
      3 7 50 (jwtSign 7 ⟨"SUPERADMIN", "u1", "a@x.com", "s2"⟩ 50)
      (signedClaims ⟨"SUPERADMIN", "u1", "a@x.com", "s2"⟩ 50) _
      (mkAcc false 0 none (some "s2"))
      rfl rfl (by decide) rfl (by decide) rfl rfl rfl

/-- C8 counterexample.  The gate's rejections are not limited to two
shapes and do reveal the failing step: at concrete inputs the gate
answers 404 "User not found" and 401 "Session mismatch detected" —
distinct from each other and from the generic 401 "Authentication
failed" — for the same token depending on which verification step
rejects. -/
theorem error_shape_cex :
    gateResponse (encryptedAuthMiddleware
      (some (generateEncryptedToken ⟨"SUPERADMIN", "u1", "a@x.com", "s1"⟩ 7 50 3 5))
      3 7 50 (fun _ => none)) = some (404, "User not found") ∧
    gateResponse (encryptedAuthMiddleware
      (some (generateEncryptedToken ⟨"SUPERADMIN", "u1", "a@x.com", "s1"⟩ 7 50 3 5))
      3 7 50 (fun i => if i = "u1" then some (mkAcc true 0 none (some "s2")) else none)) =
      some (401, "Session mismatch detected") ∧
    ¬ ((404 : Nat), "User not found") = ((401 : Nat), "Authentication failed") ∧
    ¬ ((401 : Nat), "Session mismatch detected") = ((401 : Nat), "Authentication failed") ∧
    ¬ ((404 : Nat), "User not found") = ((401 : Nat), "Session mismatch detected") := by
  exact ⟨rfl, rfl, by decide, by decide, by decide⟩

/-- C8 amended.  The gate converts every failure into one of exactly
eight fixed client-visible response shapes (statuses 401, 404 and 403;
thrown decryption, signature and expiry errors surface as the generic
401 "Authentication failed"); the other shapes carry per-step messages,
so the body does identify the rejecting verification step. -/
theorem error_shape_amended :
    ∀ (env : Option Envelope) (key secret nowSec : Nat)
      (find : String → Option SuperAdminAcc),
      gateResponse (encryptedAuthMiddleware env key secret nowSec find) ∈
        ([none,
          some (401, "Unauthorized: Missing encrypted token"),
          some (401, "Authentication failed"),
          some (401, "Malformed token payload"),
          some (401, "Token exceeded max lifetime"),
          some (401, "Invalid role"),
          some (404, "User not found"),
          some (401, "Session mismatch detected"),
          some (403, "Account is disabled")] : List (Option (Nat × String))) := by
  intro env key secret nowSec find
  cases encryptedAuthMiddleware env key secret nowSec find <;>
    simp [gateResponse]

/-- C9 counterexample.  A token issued at `iat = 0` is accepted by
signature-and-expiry verification at `now = 86401` (24h + 1s, inside
the 30-second clock tolerance) yet rejected by the gate's absolute
maximum-lifetime check, so the lifetime check is not redundant with the
verification step in the claimed direction. -/
theorem max_lifetime_cex :
    jwtVerifyBytes 7 (jwtSign 7 ⟨"SUPERADMIN", "u1", "a@x.com", "s1"⟩ 0) 86401 =
      .ok (signedClaims ⟨"SUPERADMIN", "u1", "a@x.com", "s1"⟩ 0) ∧
    (signedClaims ⟨"SUPERADMIN", "u1", "a@x.com", "s1"⟩ 0).iat < 86401 - 86400 ∧
    encryptedAuthMiddleware
      (some (generateEncryptedToken ⟨"SUPERADMIN", "u1", "a@x.com", "s1"⟩ 7 0 3 5))
      3 7 86401 (fun _ => none) = .maxLifetime := by
  exact ⟨rfl, by decide, rfl⟩

/-- C9 amended.  The gate rejects a verified token with the
max-lifetime outcome exactly when `now - issuedAt > 24h`; the
redundancy with the codec's own expiry holds in the converse
direction only: every token passing the absolute-lifetime predicate
also passes codec verification, while the codec's 30-second clock
tolerance accepts tokens up to 30 seconds past 24h that the
absolute-lifetime check rejects (see the counterexample). -/
theorem max_lifetime_amended :
    (∀ (env : Envelope) (key secret nowSec : Nat) (bytes : List Nat) (d : Claims)
      (find : String → Option SuperAdminAcc),
      decryptToken env key = some bytes →
      jwtVerifyBytes secret bytes nowSec = .ok d →
      ¬ d.userId = none → ¬ d.role = none →
      (encryptedAuthMiddleware (some env) key secret nowSec find = .maxLifetime ↔
        86400 < nowSec - d.iat)) ∧
    (∀ (secret : Nat) (p : TokenPayload) (nowSec nowV : Nat),
      ¬ (signedClaims p nowSec).iat < nowV - 86400 →
      jwtVerifyBytes secret (jwtSign secret p nowSec) nowV =
        .ok (signedClaims p nowSec)) := by
  constructor
  · intro env key secret nowSec bytes d find hdec hver h1 h2
    have h12 : ¬ (d.userId = none ∨ d.role = none) := by
      intro hor
      cases hor with
      | inl hh => exact h1 hh
      | inr hh => exact h2 hh
    simp only [encryptedAuthMiddleware, hdec, hver]
    rw [if_neg h12]
    constructor
    · intro hres
      by_cases hiat : d.iat < nowSec - 86400
      · omega
      · exfalso
        rw [if_neg hiat] at hres
        by_cases h3 : d.role = some "SUPERADMIN"
        · rw [if_pos h3] at hres
          cases hfind : find (d.userId.getD "") with
          | none =>
            simp only [hfind] at hres
            exact GateResult.noConfusion hres
          | some u =>
            simp only [hfind] at hres
            by_cases h4 : jsSessionEq d.sessionId u.sessionId = false
            · rw [if_pos h4] at hres
              exact GateResult.noConfusion hres
            rw [if_neg h4] at hres
            by_cases h5 : u.isActive = false
            · rw [if_pos h5] at hres
              exact GateResult.noConfusion hres
            rw [if_neg h5] at hres
            exact GateResult.noConfusion hres
        · rw [if_neg h3] at hres
          exact GateResult.noConfusion hres
    · intro hgt
      rw [if_pos (show d.iat < nowSec - 86400 by omega)]
  · intro secret p nowSec nowV h
    apply jwtVerifyBytes_jwtSign
    dsimp only [signedClaims] at h
    omega

/-- Witness for the amended C9 at a concrete token aged just past the
24-hour boundary, plus a concrete in-lifetime verification. -/
theorem max_lifetime_amended_witness :
    (encryptedAuthMiddleware
      (some (generateEncryptedToken ⟨"SUPERADMIN", "u1", "a@x.com", "s1"⟩ 7 0 3 5))
      3 7 86401 (fun _ => none) = .maxLifetime ↔
      86400 < 86401 - (signedClaims ⟨"SUPERADMIN", "u1", "a@x.com", "s1"⟩ 0).iat) ∧
    jwtVerifyBytes 7 (jwtSign 7 ⟨"SUPERADMIN", "u1", "a@x.com", "s1"⟩ 0) 86400 =
      .ok (signedClaims ⟨"SUPERADMIN", "u1", "a@x.com", "s1"⟩ 0) := by
  refine ⟨max_lifetime_amended.1 _ 3 7 86401 _ _ (fun _ => none) rfl rfl
    (by decide) (by decide), max_lifetime_amended.2 7 _ 0 86400 (by decide)⟩

end Oloha
